import Mathlib

/-!
Shallow embedding of `src/transformers/swc/swc-transformer.ts`.

The TypeScript module glues Jest to the external SWC compiler: it merges
caller options with `.swcrc` options and defaults (`buildSwcTransformOpts`,
`set`), conditionally appends a coverage plugin (`insertInstrumentationOptions`),
exposes sync/async transforms that overlay a per-call module type, and derives
an MD5-based cache key (`getCacheKey`).

Modelling conventions:
- JavaScript objects become Lean structures restricted to the fields the
  program reads or writes; `undefined` fields become `Option`.
- In-place mutation of the shared options object becomes explicit state
  passing: `process`/`processAsync` return the updated transformer state
  together with the options handed to the external compiler.
- External collaborators (the `@jest/create-cache-key-function` base-key
  factory, the filesystem/`.swcrc` content, `path.resolve`) are parameters;
  the MD5 hash from node's `crypto` is implemented concretely below.
- Machine integers are `Nat` with explicit `% 2^32` reductions.
-/

/-! # MD5 (node `crypto.createHash('md5') ... digest('hex')`) -/

namespace MD5

/-- Per-round additive constants `K[i] = floor(|sin(i+1)| * 2^32)`. -/
def K : List Nat :=
  [3614090360, 3905402710, 606105819, 3250441966, 4118548399, 1200080426,
   2821735955, 4249261313, 1770035416, 2336552879, 4294925233, 2304563134,
   1804603682, 4254626195, 2792965006, 1236535329, 4129170786, 3225465664,
   643717713, 3921069994, 3593408605, 38016083, 3634488961, 3889429448,
   568446438, 3275163606, 4107603335, 1163531501, 2850285829, 4243563512,
   1735328473, 2368359562, 4294588738, 2272392833, 1839030562, 4259657740,
   2763975236, 1272893353, 4139469664, 3200236656, 681279174, 3936430074,
   3572445317, 76029189, 3654602809, 3873151461, 530742520, 3299628645,
   4096336452, 1126891415, 2878612391, 4237533241, 1700485571, 2399980690,
   4293915773, 2240044497, 1873313359, 4264355552, 2734768916, 1309151649,
   4149444226, 3174756917, 718787259, 3951481745]

/-- Per-round left-rotation amounts. -/
def S : List Nat :=
  [7, 12, 17, 22, 7, 12, 17, 22, 7, 12, 17, 22, 7, 12, 17, 22,
   5, 9, 14, 20, 5, 9, 14, 20, 5, 9, 14, 20, 5, 9, 14, 20,
   4, 11, 16, 23, 4, 11, 16, 23, 4, 11, 16, 23, 4, 11, 16, 23,
   6, 10, 15, 21, 6, 10, 15, 21, 6, 10, 15, 21, 6, 10, 15, 21]

/-- 32-bit left rotation. -/
def leftrot (x s : Nat) : Nat :=
  ((x <<< s) ||| (x >>> (32 - s))) % 4294967296

/-- Little-endian serialization of `v` into `n` bytes. -/
def toLE : Nat → Nat → List Nat
  | 0, _ => []
  | n + 1, v => v % 256 :: toLE n (v / 256)

/-- The `g`-th little-endian 32-bit word of a 64-byte block. -/
def getWord (block : List Nat) (g : Nat) : Nat :=
  block.getD (4 * g) 0 + 256 * (block.getD (4 * g + 1) 0
    + 256 * (block.getD (4 * g + 2) 0 + 256 * block.getD (4 * g + 3) 0))

/-- The running 128-bit digest state. -/
structure MDState where
  a : Nat
  b : Nat
  c : Nat
  d : Nat
deriving DecidableEq

/-- One of the 64 MD5 rounds on one block. -/
def mdRound (block : List Nat) (st : MDState) (i : Nat) : MDState :=
  let fg : Nat × Nat :=
    if i < 16 then ((st.b &&& st.c) ||| ((st.b ^^^ 4294967295) &&& st.d), i)
    else if i < 32 then
      ((st.d &&& st.b) ||| ((st.d ^^^ 4294967295) &&& st.c), (5 * i + 1) % 16)
    else if i < 48 then (st.b ^^^ st.c ^^^ st.d, (3 * i + 5) % 16)
    else (st.c ^^^ (st.b ||| (st.d ^^^ 4294967295)), (7 * i) % 16)
  let f := (fg.1 + st.a + K.getD i 0 + getWord block fg.2) % 4294967296
  ⟨st.d, (st.b + leftrot f (S.getD i 0)) % 4294967296, st.b, st.c⟩

/-- Compression of one 64-byte block into the digest state. -/
def processBlock (st : MDState) (block : List Nat) : MDState :=
  let r := (List.range 64).foldl (mdRound block) st
  ⟨(st.a + r.a) % 4294967296, (st.b + r.b) % 4294967296,
   (st.c + r.c) % 4294967296, (st.d + r.d) % 4294967296⟩

/-- MD5 padding: `0x80`, zeros to 56 mod 64, then the 64-bit bit length. -/
def padMessage (msg : List Nat) : List Nat :=
  let len := msg.length
  let padZeros := (119 - len % 64) % 64
  msg ++ [128] ++ List.replicate padZeros 0 ++ toLE 8 ((8 * len) % 18446744073709551616)

/-- Split a byte list into 64-byte chunks (structural recursion on a fuel
bound so the kernel can evaluate it; the fuel is the list length, which
dominates the number of chunks). -/
def chunksAux : Nat → List Nat → List (List Nat)
  | 0, _ => []
  | _, [] => []
  | fuel + 1, x :: xs => (x :: xs).take 64 :: chunksAux fuel ((x :: xs).drop 64)

/-- Split a byte list into 64-byte chunks. -/
def chunks (l : List Nat) : List (List Nat) :=
  chunksAux l.length l

/-- Raw 16-byte MD5 digest of a byte list. -/
def md5Bytes (msg : List Nat) : List Nat :=
  let st := (chunks (padMessage msg)).foldl processBlock
    ⟨1732584193, 4023233417, 2562383102, 271733878⟩
  toLE 4 st.a ++ toLE 4 st.b ++ toLE 4 st.c ++ toLE 4 st.d

/-- Lowercase hexadecimal digit. -/
def hexDigit (n : Nat) : Char :=
  if n < 10 then Char.ofNat (48 + n) else Char.ofNat (87 + n)

/-- Two lowercase hex characters of one byte. -/
def byteHexChars (b : Nat) : List Char :=
  [hexDigit (b / 16), hexDigit (b % 16)]

/-- `digest('hex')`: the MD5 digest rendered as a lowercase hex string. -/
def md5Hex (msg : List Nat) : String :=
  String.mk ((md5Bytes msg).map byteHexChars).flatten

end MD5

/-- UTF-8 encoding of one character (node `Buffer.from(s, 'utf8')`). -/
def utf8EncodeChar (c : Char) : List Nat :=
  let n := c.toNat
  if n < 128 then [n]
  else if n < 2048 then [192 ||| (n >>> 6), 128 ||| (n &&& 63)]
  else if n < 65536 then
    [224 ||| (n >>> 12), 128 ||| ((n >>> 6) &&& 63), 128 ||| (n &&& 63)]
  else
    [240 ||| (n >>> 18), 128 ||| ((n >>> 12) &&& 63),
     128 ||| ((n >>> 6) &&& 63), 128 ||| (n &&& 63)]

/-- UTF-8 bytes of a string. -/
def utf8Bytes (s : String) : List Nat :=
  (s.data.map utf8EncodeChar).flatten

set_option maxRecDepth 100000


/-! # Data model: the option shapes the program reads and writes

Each structure keeps only the fields this module touches; all other SWC
option fields are never read or written by the program (spreads copy them
verbatim), so they are elided from the embedding. -/

/-- The `JscTarget` union of string literals from `@swc/core`
(`'es3' | 'es5' | ... | 'esnext'`); every member is a nonempty string,
hence truthy in JavaScript. -/
inductive JscTarget where
  | es3 | es5 | es2015 | es2016 | es2017 | es2018 | es2019 | es2020
  | es2021 | es2022 | esnext
deriving DecidableEq

/-- `EnvConfig` from `@swc/core`: an object (always truthy when present);
`targets` stands in for its fields, which this module never reads. -/
structure EnvConfig where
  targets : Option String
deriving DecidableEq

/-- The `sourceMaps : boolean | 'inline'` union from `@swc/core`. -/
inductive SourceMapsConfig where
  | flag (b : Bool)
  | inlineMode
deriving DecidableEq

/-- JavaScript truthiness of a possibly-absent `sourceMaps` value:
`undefined` and `false` are falsy, `true` and `'inline'` truthy. -/
def sourceMapsTruthy : Option SourceMapsConfig → Bool
  | none => false
  | some (.flag b) => b
  | some .inlineMode => true

/-- `jsc.transform.hidden`: the undocumented object holding the `jest`
marker flag written by `set(computedSwcOptions, 'jsc.transform.hidden.jest', true)`. -/
structure HiddenConfig where
  jest : Option Bool
deriving DecidableEq

def HiddenConfig.empty : HiddenConfig := ⟨none⟩

/-- `jsc.transform`: only the `hidden` sub-object is touched here. -/
structure TransformConfig where
  hidden : Option HiddenConfig
deriving DecidableEq

def TransformConfig.empty : TransformConfig := ⟨none⟩

/-- The sub-options of `experimental.customCoverageInstrumentation` minus
`enabled` — exactly what the rest-destructuring in `createTransformer`
leaves, and what gets paired with the coverage plugin name. -/
structure InstrumentationOptions where
  coverageVariable : Option String
  compact : Option Bool
  reportLogic : Option Bool
  ignoreClassMethods : Option (List String)
  instrumentLogLevel : Option String
  instrumentLogEnableTrace : Option Bool
deriving DecidableEq

def InstrumentationOptions.empty : InstrumentationOptions :=
  ⟨none, none, none, none, none, none⟩

/-- The options value of a plugin descriptor `[name, options]`: either the
instrumentation options this module pushes, or an arbitrary value carried
by a caller-supplied plugin entry (opaque to this module). -/
inductive PluginOptions where
  | instr (o : InstrumentationOptions)
  | raw (s : String)
deriving DecidableEq

/-- `jsc.experimental`: only `plugins` is touched here. -/
structure JscExperimental where
  plugins : Option (List (String × PluginOptions))
deriving DecidableEq

def JscExperimental.empty : JscExperimental := ⟨none⟩

/-- `jsc` config: the fields this module reads or writes. -/
structure JscConfig where
  target : Option JscTarget
  baseUrl : Option String
  transform : Option TransformConfig
  experimental : Option JscExperimental
deriving DecidableEq

def JscConfig.empty : JscConfig := ⟨none, none, none, none⟩

/-- `module` config: `type` plus a representative passthrough field for the
other `ModuleConfig` members that the per-call spread copies verbatim. -/
structure ModuleConfig where
  type : Option String
  strictMode : Option Bool
deriving DecidableEq

def ModuleConfig.empty : ModuleConfig := ⟨none, none⟩

/-- `Options` from `@swc/core`, restricted to the fields this module reads
or writes (`env`, `jsc`, `sourceMaps`, `module`, `filename`). -/
structure Options where
  env : Option EnvConfig
  jsc : Option JscConfig
  sourceMaps : Option SourceMapsConfig
  module : Option ModuleConfig
  filename : Option String
deriving DecidableEq

def Options.empty : Options := ⟨none, none, none, none, none⟩

/-- `experimental.customCoverageInstrumentation` (flat TS interface;
the log sub-block is flattened into its two fields). -/
structure CustomCoverageInstrumentation where
  enabled : Bool
  coverageVariable : Option String
  compact : Option Bool
  reportLogic : Option Bool
  ignoreClassMethods : Option (List String)
  instrumentLogLevel : Option String
  instrumentLogEnableTrace : Option Bool
deriving DecidableEq

/-- The rest-destructuring `const { enabled, ...instrumentOptions } = ...`. -/
def CustomCoverageInstrumentation.withoutEnabled
    (c : CustomCoverageInstrumentation) : InstrumentationOptions :=
  ⟨c.coverageVariable, c.compact, c.reportLogic, c.ignoreClassMethods,
   c.instrumentLogLevel, c.instrumentLogEnableTrace⟩

/-- The `experimental` block of the setup input. -/
structure ExperimentalConfig where
  customCoverageInstrumentation : Option CustomCoverageInstrumentation
deriving DecidableEq

/-- The argument type of `createTransformer`/`buildSwcTransformOpts`:
`Options & { experimental?: ... }`, modelled as the `Options` part plus the
top-level `experimental` key that the destructuring strips off. -/
structure SetupInput where
  opts : Options
  experimental : Option ExperimentalConfig
deriving DecidableEq

def SetupInput.empty : SetupInput := ⟨Options.empty, none⟩

/-- Jest's per-call `TransformOptions`, restricted to the two fields this
module reads: `supportsStaticESM` and `instrument`. -/
structure JestTransformOptions where
  supportsStaticESM : Bool
  instrument : Bool
deriving DecidableEq

/-- A `ParseError` from the external `jsonc-parser` package:
`{ error: ParseErrorCode; offset: number; length: number }`. -/
structure ParseError where
  error : Nat
  offset : Nat
  len : Nat
deriving DecidableEq

/-- JavaScript's default rendering of a plain object inside
`Array.prototype.join` / a template literal. -/
def renderParseError (_e : ParseError) : String := "[object Object]"

/-- The ambient state `getOptionsFromSwrc` reads: the working directory,
whether `<cwd>/.swcrc` exists (`fs.existsSync`), and the result the external
`jsonc-parser` produces for its content (parsed value plus collected
errors). -/
structure SwcrcEnv where
  cwd : String
  present : Bool
  parsed : SetupInput
  parseErrors : List ParseError

/-- An `.swcrc`-free environment (the file does not exist). -/
def SwcrcEnv.absent : SwcrcEnv := ⟨"", false, SetupInput.empty, []⟩

/-! # The generic `set(obj, path, value)` helper, specialized per call site

The source's `set` splits a dotted path, creates an empty object at every
intermediate key that is `null`/`undefined`, and overwrites the leaf. Each
specialization below mirrors that behavior for one of the four paths the
program actually passes. -/

/-- `set(obj, 'jsc.target', v)`. -/
def setJscTarget (o : Options) (v : JscTarget) : Options :=
  let j := o.jsc.getD JscConfig.empty
  { o with jsc := some { j with target := some v } }

/-- `set(obj, 'jsc.transform.hidden.jest', v)`. -/
def setHiddenJest (o : Options) (v : Bool) : Options :=
  let j := o.jsc.getD JscConfig.empty
  let t := j.transform.getD TransformConfig.empty
  let h := t.hidden.getD HiddenConfig.empty
  let t' := { t with hidden := some { h with jest := some v } }
  { o with jsc := some { j with transform := some t' } }

/-- `set(obj, 'sourceMaps', 'inline')`. -/
def setSourceMapsInline (o : Options) : Options :=
  { o with sourceMaps := some SourceMapsConfig.inlineMode }

/-- `set(obj, 'jsc.baseUrl', v)`. -/
def setJscBaseUrl (o : Options) (v : String) : Options :=
  let j := o.jsc.getD JscConfig.empty
  { o with jsc := some { j with baseUrl := some v } }

/-! # Option Resolver -/

/-- The module's own version constant. -/
def version : String := "0.2.26"

/-- `getOptionsFromSwrc()`: if `<cwd>/.swcrc` exists, parse it with the
external `jsonc-parser`; on parse errors `throw new Error`, whose message
interpolates the joined error objects (JavaScript renders each as
`[object Object]`); otherwise return the parse result; if the file is
absent, return `{}`. `path.join(cwd, '.swcrc')` is modelled as
concatenation with a slash. `throw` becomes `Except.error`. -/
def getOptionsFromSwrc (env : SwcrcEnv) : Except String SetupInput :=
  let swcrc := env.cwd ++ "/.swcrc"
  if env.present then
    if env.parseErrors.length > 0 then
      Except.error ("Error parsing " ++ swcrc ++ ": "
        ++ String.intercalate ", " (env.parseErrors.map renderParseError))
    else
      Except.ok env.parsed
  else
    Except.ok SetupInput.empty

/-- `swcOptions || getOptionsFromSwrc()`: an object argument is truthy, so
explicit options short-circuit the `.swcrc` read entirely. -/
def resolveInput (swcOptions : Option SetupInput) (env : SwcrcEnv) :
    Except String SetupInput :=
  match swcOptions with
  | some o => Except.ok o
  | none => getOptionsFromSwrc env

/-- `if (!computedSwcOptions.env && !computedSwcOptions.jsc?.target)
set(computedSwcOptions, 'jsc.target', 'es2016')`: with the typed fields,
JavaScript truthiness of `env` (an object or `undefined`) and of
`jsc?.target` (a nonempty string literal or `undefined`) is presence. -/
def targetStep (o : Options) : Options :=
  if o.env.isNone && (o.jsc.bind JscConfig.target).isNone
  then setJscTarget o JscTarget.es2016 else o

/-- `if (!computedSwcOptions.sourceMaps) set(computedSwcOptions,
'sourceMaps', 'inline')`: `!` on `boolean | 'inline' | undefined`. -/
def sourceMapsStep (o : Options) : Options :=
  if !sourceMapsTruthy o.sourceMaps then setSourceMapsInline o else o

/-- `if (computedSwcOptions.jsc?.baseUrl) set(computedSwcOptions,
'jsc.baseUrl', path.resolve(...))`: a present but empty string is falsy. -/
def baseUrlStep (o : Options) (resolvePath : String → String) : Options :=
  match o.jsc.bind JscConfig.baseUrl with
  | some b => if b != "" then setJscBaseUrl o (resolvePath b) else o
  | none => o

/-- The defaulting chain of `buildSwcTransformOpts`, applied to the
destructured options (top-level `experimental` already stripped):
target default, hidden jest marker, sourceMaps default, baseUrl
resolution, in source order. `resolvePath` stands for node's
`path.resolve`. -/
def applyDefaults (o : Options) (resolvePath : String → String) : Options :=
  baseUrlStep (sourceMapsStep (setHiddenJest (targetStep o) true)) resolvePath

/-- `buildSwcTransformOpts(swcOptions)`: choose explicit options or the
`.swcrc` result, drop the top-level `experimental` key, apply the
defaults. A parse failure propagates and no options are produced. -/
def buildSwcTransformOpts (swcOptions : Option SetupInput) (env : SwcrcEnv)
    (resolvePath : String → String) : Except String Options :=
  match resolveInput swcOptions env with
  | Except.error e => Except.error e
  | Except.ok chosen => Except.ok (applyDefaults chosen.opts resolvePath)

/-! # JSON serialization of the computed options

`JSON.stringify(computedSwcOptions)` — rendered in declared field order,
omitting absent fields, string content taken verbatim (none of the strings
this module produces need JSON escaping). Only used as the version
fingerprint handed to the external base-key factory at setup. -/

def jsonString (s : String) : String := "\"" ++ s ++ "\""

def jsonBool (b : Bool) : String := if b then "true" else "false"

/-- An object from the key/value pairs of the present fields. -/
def jsonObj (fields : List (String × Option String)) : String :=
  "\x7b" ++ String.intercalate ","
    (fields.filterMap (fun kv => kv.2.map (fun v => jsonString kv.1 ++ ":" ++ v)))
    ++ "\x7d"

def renderTarget : JscTarget → String
  | JscTarget.es3 => "es3"
  | JscTarget.es5 => "es5"
  | JscTarget.es2015 => "es2015"
  | JscTarget.es2016 => "es2016"
  | JscTarget.es2017 => "es2017"
  | JscTarget.es2018 => "es2018"
  | JscTarget.es2019 => "es2019"
  | JscTarget.es2020 => "es2020"
  | JscTarget.es2021 => "es2021"
  | JscTarget.es2022 => "es2022"
  | JscTarget.esnext => "esnext"

def renderSourceMaps : SourceMapsConfig → String
  | SourceMapsConfig.flag b => jsonBool b
  | SourceMapsConfig.inlineMode => jsonString "inline"

def jsonStrList (l : List String) : String :=
  "[" ++ String.intercalate "," (l.map jsonString) ++ "]"

def jsonInstrumentationOptions (o : InstrumentationOptions) : String :=
  jsonObj
    [("coverageVariable", o.coverageVariable.map jsonString),
     ("compact", o.compact.map jsonBool),
     ("reportLogic", o.reportLogic.map jsonBool),
     ("ignoreClassMethods", o.ignoreClassMethods.map jsonStrList),
     ("instrumentLog",
       match o.instrumentLogLevel, o.instrumentLogEnableTrace with
       | none, none => none
       | lv, tr => some (jsonObj
           [("level", lv.map jsonString), ("enableTrace", tr.map jsonBool)]))]

def jsonPluginOptions : PluginOptions → String
  | PluginOptions.instr o => jsonInstrumentationOptions o
  | PluginOptions.raw s => jsonString s

def jsonPlugins (l : List (String × PluginOptions)) : String :=
  "[" ++ String.intercalate ","
    (l.map (fun p => "[" ++ jsonString p.1 ++ "," ++ jsonPluginOptions p.2 ++ "]"))
    ++ "]"

def jsonJsc (j : JscConfig) : String :=
  jsonObj
    [("target", j.target.map renderTarget),
     ("baseUrl", j.baseUrl.map jsonString),
     ("transform", j.transform.map (fun t => jsonObj
        [("hidden", t.hidden.map (fun h => jsonObj
           [("jest", h.jest.map jsonBool)]))])),
     ("experimental", j.experimental.map (fun e => jsonObj
        [("plugins", e.plugins.map jsonPlugins)]))]

def jsonStringifyOptions (o : Options) : String :=
  jsonObj
    [("env", o.env.map (fun e => jsonObj [("targets", e.targets.map jsonString)])),
     ("jsc", o.jsc.map jsonJsc),
     ("sourceMaps", o.sourceMaps.map renderSourceMaps),
     ("module", o.module.map (fun m => jsonObj
        [("type", m.type.map jsonString),
         ("strictMode", m.strictMode.map jsonBool)])),
     ("filename", o.filename.map jsonString)]

/-! # Instrumentation Injector -/

/-- The fixed coverage-plugin identifier. -/
def coveragePluginName : String := "swc-plugin-coverage-instrument"

/-- `insertInstrumentationOptions(jestOptions, canInstrument, swcTransformOpts,
instrumentOptions)`: mutation of the shared options becomes a returned
`Options` value. A no-op unless `jestOptions.instrument && canInstrument`;
a no-op when the plugin list already holds a coverage entry
(`plugins?.some(x => x[0] === '...')`, `undefined` being falsy); otherwise
materializes `jsc`, `jsc.experimental` and the plugin array when missing
and appends `['swc-plugin-coverage-instrument', instrumentOptions ?? {}]`. -/
def insertInstrumentationOptions (jestOptions : JestTransformOptions)
    (canInstrument : Bool) (swcTransformOpts : Options)
    (instrumentOptions : Option InstrumentationOptions) : Options :=
  let shouldInstrument := jestOptions.instrument && canInstrument
  if !shouldInstrument then
    swcTransformOpts
  else if (((swcTransformOpts.jsc.bind JscConfig.experimental).bind
      JscExperimental.plugins).getD []).any
      (fun x => x.1 == coveragePluginName) then
    swcTransformOpts
  else
    let j := swcTransformOpts.jsc.getD JscConfig.empty
    let e := j.experimental.getD JscExperimental.empty
    let ps := e.plugins.getD []
    let e' := { e with plugins := some (ps ++ [(coveragePluginName,
      PluginOptions.instr (instrumentOptions.getD InstrumentationOptions.empty))]) }
    { swcTransformOpts with jsc := some { j with experimental := some e' } }

/-! # The configured transformer instance -/

/-- The state a `createTransformer` call closes over: the `canInstrument`
flag, the destructured instrumentation options, the shared (mutable)
computed options, and the base cache-key closure created once at setup. -/
structure TransformerState where
  canInstrument : Bool
  instrumentOptions : InstrumentationOptions
  computedSwcOptions : Options
  cacheKeyFunction : String → String → JestTransformOptions → String

/-- What a transform call hands to the external SWC compiler: the source
text and the per-call overlay of the shared options. -/
structure CompilerInvocation where
  src : String
  opts : Options

/-- `createTransformer(swcTransformOpts)`. `getCacheKeyFunction` stands for
the external `@jest/create-cache-key-function` factory: it receives the
file list and the value list `[swcVersion, version, JSON.stringify(opts)]`
once, at setup, and yields the base-key closure. `swcCoreVersion` is the
external `@swc/core` version string. -/
def createTransformer
    (getCacheKeyFunction : List String → List String →
      (String → String → JestTransformOptions → String))
    (swcCoreVersion : String)
    (swcTransformOpts : Option SetupInput) (env : SwcrcEnv)
    (resolvePath : String → String) : Except String TransformerState :=
  match buildSwcTransformOpts swcTransformOpts env resolvePath with
  | Except.error e => Except.error e
  | Except.ok computedSwcOptions =>
    let cacheKeyFunction := getCacheKeyFunction []
      [swcCoreVersion, version, jsonStringifyOptions computedSwcOptions]
    let cci := (swcTransformOpts.bind SetupInput.experimental).bind
      ExperimentalConfig.customCoverageInstrumentation
    let canInstrument := (cci.map CustomCoverageInstrumentation.enabled).getD false
    let instrumentOptions :=
      (cci.map CustomCoverageInstrumentation.withoutEnabled).getD
        InstrumentationOptions.empty
    Except.ok ⟨canInstrument, instrumentOptions, computedSwcOptions, cacheKeyFunction⟩

/-- `process(src, filename, jestOptions)`: run the injector on the shared
options (the mutation persists in the returned state), then call the
external `transformSync` with a shallow overlay choosing the module type
from `supportsStaticESM` and adding the filename. -/
def process (st : TransformerState) (src filename : String)
    (jestOptions : JestTransformOptions) : TransformerState × CompilerInvocation :=
  let newOpts := insertInstrumentationOptions jestOptions st.canInstrument
    st.computedSwcOptions (some st.instrumentOptions)
  (⟨st.canInstrument, st.instrumentOptions, newOpts, st.cacheKeyFunction⟩,
   ⟨src, { newOpts with
      module := some { newOpts.module.getD ModuleConfig.empty with
        type := some (if jestOptions.supportsStaticESM then "es6" else "commonjs") },
      filename := some filename }⟩)

/-- `processAsync(src, filename, jestOptions)`: same injector side effect,
but the overlay always requests `'es6'` module output. -/
def processAsync (st : TransformerState) (src filename : String)
    (jestOptions : JestTransformOptions) : TransformerState × CompilerInvocation :=
  let newOpts := insertInstrumentationOptions jestOptions st.canInstrument
    st.computedSwcOptions (some st.instrumentOptions)
  (⟨st.canInstrument, st.instrumentOptions, newOpts, st.cacheKeyFunction⟩,
   ⟨src, { newOpts with
      module := some { newOpts.module.getD ModuleConfig.empty with
        type := some "es6" },
      filename := some filename }⟩)

/-- `JSON.stringify({ supportsStaticESM: flag })`. -/
def jsonSupportsStaticESM (b : Bool) : String :=
  "\x7b\"supportsStaticESM\":" ++ jsonBool b ++ "\x7d"

/-- `getCacheKey(src, filename, options)`: the base key from the setup-time
closure, then `md5(baseKey ++ '\0' ++ JSON.stringify({supportsStaticESM}))`
in hex. (The Jest &lt;27 positional-argument shim is elided; `options` is the
per-call transform options object.) -/
def getCacheKey (st : TransformerState) (src filename : String)
    (options : JestTransformOptions) : String :=
  let baseCacheKey := st.cacheKeyFunction src filename options
  MD5.md5Hex (utf8Bytes baseCacheKey ++ [0]
    ++ utf8Bytes (jsonSupportsStaticESM options.supportsStaticESM))

/-! # Call sequences over one configured instance -/

/-- One transform call: its arguments and whether the async entry point was
used. -/
structure TransformCall where
  src : String
  filename : String
  jestOptions : JestTransformOptions
  isAsync : Bool

/-- The state after one call (the compiler result is external). -/
def runCall (st : TransformerState) (c : TransformCall) : TransformerState :=
  if c.isAsync then (processAsync st c.src c.filename c.jestOptions).1
  else (process st c.src c.filename c.jestOptions).1

/-- The state after a sequence of calls. -/
def runCalls (st : TransformerState) (cs : List TransformCall) : TransformerState :=
  cs.foldl runCall st

/-! # Read-back helpers -/

/-- The plugin list of the shared options, the empty list when the
`jsc.experimental.plugins` path is not materialized. -/
def pluginsOf (o : Options) : List (String × PluginOptions) :=
  ((o.jsc.bind JscConfig.experimental).bind JscExperimental.plugins).getD []

/-- How many coverage-plugin descriptors the plugin list holds. -/
def coverageCount (o : Options) : Nat :=
  (pluginsOf o).countP (fun x => x.1 == coveragePluginName)

/-- The hidden `jsc.transform.hidden.jest` marker. -/
def hiddenJestOf (o : Options) : Option Bool :=
  ((o.jsc.bind JscConfig.transform).bind TransformConfig.hidden).bind HiddenConfig.jest

/-- The `jsc.target` field. -/
def targetOf (o : Options) : Option JscTarget :=
  o.jsc.bind JscConfig.target


/-! # Concrete fixtures used by the closed checks below -/

/-- The lowercase hexadecimal alphabet. -/
def lowerHexChars : List Char := "0123456789abcdef".data

/-- A transformer state whose base-key closure is the constant `"base"`. -/
def md5SpecState : TransformerState :=
  ⟨false, InstrumentationOptions.empty, Options.empty, fun _ _ _ => "base"⟩

/-- A state of an instance that was not marked capable of instrumenting. -/
def noopState : TransformerState :=
  ⟨false, InstrumentationOptions.empty, Options.empty, fun _ _ _ => ""⟩

/-- A state of an instrumentation-capable instance with empty options. -/
def capableState : TransformerState :=
  ⟨true, InstrumentationOptions.empty, Options.empty, fun _ _ _ => ""⟩

/-- A synchronous transform call with coverage requested. -/
def covCall : TransformCall := ⟨"s", "f.ts", ⟨false, true⟩, false⟩

/-- A constant stand-in for the external base-key factory. -/
def ckfConst : List String → List String →
    String → String → JestTransformOptions → String :=
  fun _ _ _ _ _ => ""

/-- A setup input whose plugin list already holds two coverage descriptors
(well-typed for `@swc/core`, which does not forbid duplicate names), with
instrumentation enabled. -/
def dupPluginsInput : SetupInput :=
  let plugins := [(coveragePluginName, PluginOptions.raw ""),
                  (coveragePluginName, PluginOptions.raw "")]
  let jsc := { JscConfig.empty with experimental := some ⟨some plugins⟩ }
  ⟨{ Options.empty with jsc := some jsc },
   some ⟨some ⟨true, none, none, none, none, none, none⟩⟩⟩

/-- A setup input that sets the source-map option to an explicit `false`. -/
def smFalseInput : SetupInput :=
  ⟨{ Options.empty with sourceMaps := some (SourceMapsConfig.flag false) }, none⟩

/-- An environment whose `.swcrc` exists and yields one parse error. -/
def badSwcrcEnv : SwcrcEnv := ⟨"/proj", true, SetupInput.empty, [⟨1, 0, 1⟩]⟩

example : MD5.md5Hex (utf8Bytes "") = "d41d8cd98f00b204e9800998ecf8427e" := by decide

example : MD5.md5Hex (utf8Bytes "abc") = "900150983cd24fb0d6963f7d28e17f72" := by decide


/-! # Lemmas: what the injector touches -/

/-- The injector is the identity when `instrument && canInstrument` fails. -/
theorem insert_of_not_should (jo : JestTransformOptions) (c : Bool) (o : Options)
    (io : Option InstrumentationOptions) (h : (jo.instrument && c) = false) :
    insertInstrumentationOptions jo c o io = o := by
  simp [insertInstrumentationOptions, h]

/-- The injector is the identity when a coverage entry is already present. -/
theorem insert_of_present (jo : JestTransformOptions) (c : Bool) (o : Options)
    (io : Option InstrumentationOptions)
    (h : (pluginsOf o).any (fun x => x.1 == coveragePluginName) = true) :
    insertInstrumentationOptions jo c o io = o := by
  simp only [insertInstrumentationOptions, pluginsOf] at *
  simp [h]

/-- The injector never changes the `module` field. -/
theorem insert_module (jo : JestTransformOptions) (c : Bool) (o : Options)
    (io : Option InstrumentationOptions) :
    (insertInstrumentationOptions jo c o io).module = o.module := by
  simp only [insertInstrumentationOptions]
  split
  · rfl
  · split <;> rfl

/-- The injector never changes the `env` field. -/
theorem insert_env (jo : JestTransformOptions) (c : Bool) (o : Options)
    (io : Option InstrumentationOptions) :
    (insertInstrumentationOptions jo c o io).env = o.env := by
  simp only [insertInstrumentationOptions]
  split
  · rfl
  · split <;> rfl

/-- The injector never changes the `sourceMaps` field. -/
theorem insert_sourceMaps (jo : JestTransformOptions) (c : Bool) (o : Options)
    (io : Option InstrumentationOptions) :
    (insertInstrumentationOptions jo c o io).sourceMaps = o.sourceMaps := by
  simp only [insertInstrumentationOptions]
  split
  · rfl
  · split <;> rfl

/-- The injector never changes the `filename` field. -/
theorem insert_filename (jo : JestTransformOptions) (c : Bool) (o : Options)
    (io : Option InstrumentationOptions) :
    (insertInstrumentationOptions jo c o io).filename = o.filename := by
  simp only [insertInstrumentationOptions]
  split
  · rfl
  · split <;> rfl

/-- The injector never changes `jsc.target`. -/
theorem insert_target (jo : JestTransformOptions) (c : Bool) (o : Options)
    (io : Option InstrumentationOptions) :
    targetOf (insertInstrumentationOptions jo c o io) = targetOf o := by
  simp only [insertInstrumentationOptions]
  split
  · rfl
  · split
    · rfl
    · cases h : o.jsc <;> simp [targetOf, h, JscConfig.empty]

/-- The injector never changes `jsc.baseUrl`. -/
theorem insert_baseUrl (jo : JestTransformOptions) (c : Bool) (o : Options)
    (io : Option InstrumentationOptions) :
    (insertInstrumentationOptions jo c o io).jsc.bind JscConfig.baseUrl =
      o.jsc.bind JscConfig.baseUrl := by
  simp only [insertInstrumentationOptions]
  split
  · rfl
  · split
    · rfl
    · cases h : o.jsc <;> simp [h, JscConfig.empty]

/-- The injector never changes `jsc.transform` (hence the hidden marker). -/
theorem insert_transform (jo : JestTransformOptions) (c : Bool) (o : Options)
    (io : Option InstrumentationOptions) :
    (insertInstrumentationOptions jo c o io).jsc.bind JscConfig.transform =
      o.jsc.bind JscConfig.transform := by
  simp only [insertInstrumentationOptions]
  split
  · rfl
  · split
    · rfl
    · cases h : o.jsc <;> simp [h, JscConfig.empty]

/-- The plugin list after the injector: unchanged, or with exactly the
coverage descriptor appended. -/
theorem insert_plugins (jo : JestTransformOptions) (c : Bool) (o : Options)
    (io : Option InstrumentationOptions) :
    pluginsOf (insertInstrumentationOptions jo c o io) = pluginsOf o ∨
    pluginsOf (insertInstrumentationOptions jo c o io) = pluginsOf o ++
      [(coveragePluginName,
        PluginOptions.instr (io.getD InstrumentationOptions.empty))] := by
  simp only [insertInstrumentationOptions]
  split
  · exact Or.inl rfl
  · split
    · exact Or.inl rfl
    · right
      cases h : o.jsc with
      | none => simp [pluginsOf, h, JscConfig.empty, JscExperimental.empty]
      | some j =>
        cases he : j.experimental with
        | none => simp [pluginsOf, h, he, JscExperimental.empty]
        | some e => cases hp : e.plugins <;> simp [pluginsOf, h, he, hp]

/-- When both flags hold and no coverage entry is present yet, the injector
appends exactly the coverage descriptor. -/
theorem insert_plugins_push (jo : JestTransformOptions) (c : Bool) (o : Options)
    (io : Option InstrumentationOptions) (hs : (jo.instrument && c) = true)
    (hp : (pluginsOf o).any (fun x => x.1 == coveragePluginName) = false) :
    pluginsOf (insertInstrumentationOptions jo c o io) = pluginsOf o ++
      [(coveragePluginName,
        PluginOptions.instr (io.getD InstrumentationOptions.empty))] := by
  simp only [pluginsOf] at hp
  simp only [insertInstrumentationOptions, hs, Bool.not_true, if_neg, hp,
    Bool.false_eq_true, not_false_eq_true]
  cases h : o.jsc with
  | none => simp [pluginsOf, h, JscConfig.empty, JscExperimental.empty]
  | some j =>
    cases he : j.experimental with
    | none => simp [pluginsOf, h, he, JscExperimental.empty]
    | some e => cases hpl : e.plugins <;> simp [pluginsOf, h, he, hpl]

/-- The number of coverage descriptors after the injector. -/
theorem insert_coverageCount (jo : JestTransformOptions) (c : Bool) (o : Options)
    (io : Option InstrumentationOptions) :
    coverageCount (insertInstrumentationOptions jo c o io) =
      if jo.instrument && c then max (coverageCount o) 1 else coverageCount o := by
  by_cases hs : (jo.instrument && c) = true
  · simp only [hs, if_true]
    by_cases hp : (pluginsOf o).any (fun x => x.1 == coveragePluginName) = true
    · rw [insert_of_present jo c o io hp]
      have h1 : 1 ≤ coverageCount o := by
        rcases List.any_eq_true.mp hp with ⟨x, hx, hpx⟩
        exact List.countP_pos_iff.mpr ⟨x, hx, hpx⟩
      rw [Nat.max_eq_left h1]
    · have hp' : (pluginsOf o).any (fun x => x.1 == coveragePluginName) = false := by
        cases hb : (pluginsOf o).any (fun x => x.1 == coveragePluginName) <;> simp_all
      have hz : coverageCount o = 0 := by
        rw [coverageCount, List.countP_eq_zero]
        exact List.any_eq_false.mp hp'
      rw [coverageCount, insert_plugins_push jo c o io hs hp', List.countP_append,
        ← coverageCount, hz]
      simp
  · have hs' : (jo.instrument && c) = false := by
      cases hb : (jo.instrument && c) <;> simp_all
    rw [insert_of_not_should jo c o io hs', hs']
    simp

/-! # Lemmas: the defaulting chain -/

theorem hiddenJest_setHiddenJest (o : Options) (v : Bool) :
    hiddenJestOf (setHiddenJest o v) = some v := rfl

theorem hiddenJest_setSourceMapsInline (o : Options) :
    hiddenJestOf (setSourceMapsInline o) = hiddenJestOf o := rfl

theorem hiddenJest_setJscBaseUrl (o : Options) (v : String) :
    hiddenJestOf (setJscBaseUrl o v) = hiddenJestOf o := by
  cases h : o.jsc <;> simp [hiddenJestOf, setJscBaseUrl, h, JscConfig.empty]

theorem target_setJscTarget (o : Options) (v : JscTarget) :
    targetOf (setJscTarget o v) = some v := rfl

theorem target_setHiddenJest (o : Options) (v : Bool) :
    targetOf (setHiddenJest o v) = targetOf o := by
  cases h : o.jsc <;> simp [targetOf, setHiddenJest, h, JscConfig.empty]

theorem target_setSourceMapsInline (o : Options) :
    targetOf (setSourceMapsInline o) = targetOf o := rfl

theorem target_setJscBaseUrl (o : Options) (v : String) :
    targetOf (setJscBaseUrl o v) = targetOf o := by
  cases h : o.jsc <;> simp [targetOf, setJscBaseUrl, h, JscConfig.empty]

theorem sourceMaps_setJscTarget (o : Options) (v : JscTarget) :
    (setJscTarget o v).sourceMaps = o.sourceMaps := rfl

theorem sourceMaps_setHiddenJest (o : Options) (v : Bool) :
    (setHiddenJest o v).sourceMaps = o.sourceMaps := rfl

theorem sourceMaps_setJscBaseUrl (o : Options) (v : String) :
    (setJscBaseUrl o v).sourceMaps = o.sourceMaps := rfl

theorem sourceMaps_setSourceMapsInline (o : Options) :
    (setSourceMapsInline o).sourceMaps = some SourceMapsConfig.inlineMode := rfl

theorem hiddenJest_targetStep (o : Options) :
    hiddenJestOf (targetStep o) = hiddenJestOf o := by
  unfold targetStep
  split
  · cases h : o.jsc <;> simp [hiddenJestOf, setJscTarget, h, JscConfig.empty]
  · rfl

theorem hiddenJest_sourceMapsStep (o : Options) :
    hiddenJestOf (sourceMapsStep o) = hiddenJestOf o := by
  unfold sourceMapsStep
  split <;> rfl

theorem hiddenJest_baseUrlStep (o : Options) (rp : String → String) :
    hiddenJestOf (baseUrlStep o rp) = hiddenJestOf o := by
  unfold baseUrlStep
  split
  · split
    · exact hiddenJest_setJscBaseUrl o _
    · rfl
  · rfl

theorem target_sourceMapsStep (o : Options) :
    targetOf (sourceMapsStep o) = targetOf o := by
  unfold sourceMapsStep
  split <;> rfl

theorem target_baseUrlStep (o : Options) (rp : String → String) :
    targetOf (baseUrlStep o rp) = targetOf o := by
  unfold baseUrlStep
  split
  · split
    · exact target_setJscBaseUrl o _
    · rfl
  · rfl

theorem sourceMaps_targetStep (o : Options) :
    (targetStep o).sourceMaps = o.sourceMaps := by
  unfold targetStep
  split <;> rfl

theorem sourceMaps_baseUrlStep (o : Options) (rp : String → String) :
    (baseUrlStep o rp).sourceMaps = o.sourceMaps := by
  unfold baseUrlStep
  split
  · split
    · exact sourceMaps_setJscBaseUrl o _
    · rfl
  · rfl

/-- The hidden jest marker is `true` after the defaulting chain, whatever
the input. -/
theorem applyDefaults_hiddenJest (o : Options) (rp : String → String) :
    hiddenJestOf (applyDefaults o rp) = some true := by
  unfold applyDefaults
  rw [hiddenJest_baseUrlStep, hiddenJest_sourceMapsStep, hiddenJest_setHiddenJest]

/-- The target after the defaulting chain when the default fires. -/
theorem applyDefaults_target_default (o : Options) (rp : String → String)
    (henv : o.env = none) (ht : o.jsc.bind JscConfig.target = none) :
    targetOf (applyDefaults o rp) = some JscTarget.es2016 := by
  unfold applyDefaults
  rw [target_baseUrlStep, target_sourceMapsStep, target_setHiddenJest]
  unfold targetStep
  rw [if_pos (by simp [henv, ht])]
  exact target_setJscTarget o _

/-- The target after the defaulting chain when the default is skipped. -/
theorem applyDefaults_target_keep (o : Options) (rp : String → String)
    (hcond : (o.env.isNone && (o.jsc.bind JscConfig.target).isNone) = false) :
    targetOf (applyDefaults o rp) = targetOf o := by
  unfold applyDefaults
  rw [target_baseUrlStep, target_sourceMapsStep, target_setHiddenJest]
  unfold targetStep
  rw [if_neg (by simp [hcond])]

/-- The sourceMaps value after the defaulting chain when the caller's value
is falsy (`undefined` or `false`): the inline default overwrites it. -/
theorem applyDefaults_sourceMaps_falsy (o : Options) (rp : String → String)
    (h : sourceMapsTruthy o.sourceMaps = false) :
    (applyDefaults o rp).sourceMaps = some SourceMapsConfig.inlineMode := by
  unfold applyDefaults
  rw [sourceMaps_baseUrlStep]
  unfold sourceMapsStep
  rw [sourceMaps_setHiddenJest, sourceMaps_targetStep, h]
  simp [sourceMaps_setSourceMapsInline, sourceMaps_setHiddenJest, sourceMaps_targetStep]

/-- The sourceMaps value after the defaulting chain when the caller's value
is truthy (`true` or `'inline'`): left unchanged. -/
theorem applyDefaults_sourceMaps_truthy (o : Options) (rp : String → String)
    (h : sourceMapsTruthy o.sourceMaps = true) :
    (applyDefaults o rp).sourceMaps = o.sourceMaps := by
  unfold applyDefaults
  rw [sourceMaps_baseUrlStep]
  unfold sourceMapsStep
  rw [sourceMaps_setHiddenJest, sourceMaps_targetStep, h]
  simp [sourceMaps_setHiddenJest, sourceMaps_targetStep]

/-! # Lemmas: per-call state transitions -/

/-- One call leaves the base-key closure untouched. -/
theorem runCall_cacheKeyFunction (st : TransformerState) (c : TransformCall) :
    (runCall st c).cacheKeyFunction = st.cacheKeyFunction := by
  unfold runCall
  split <;> rfl

/-- One call leaves the capability flag untouched. -/
theorem runCall_canInstrument (st : TransformerState) (c : TransformCall) :
    (runCall st c).canInstrument = st.canInstrument := by
  unfold runCall
  split <;> rfl

/-- One call leaves the instrumentation options untouched. -/
theorem runCall_instrumentOptions (st : TransformerState) (c : TransformCall) :
    (runCall st c).instrumentOptions = st.instrumentOptions := by
  unfold runCall
  split <;> rfl

/-- The coverage count after one call, sync or async. -/
theorem runCall_coverageCount (st : TransformerState) (c : TransformCall) :
    coverageCount (runCall st c).computedSwcOptions =
      if c.jestOptions.instrument && st.canInstrument
      then max (coverageCount st.computedSwcOptions) 1
      else coverageCount st.computedSwcOptions := by
  unfold runCall
  split <;>
    exact insert_coverageCount c.jestOptions st.canInstrument
      st.computedSwcOptions (some st.instrumentOptions)

/-- A whole call sequence leaves the base-key closure untouched. -/
theorem runCalls_cacheKeyFunction (st : TransformerState) (cs : List TransformCall) :
    (runCalls st cs).cacheKeyFunction = st.cacheKeyFunction := by
  induction cs generalizing st with
  | nil => rfl
  | cons c cs ih =>
    rw [runCalls, List.foldl_cons, ← runCalls, ih, runCall_cacheKeyFunction]

/-! # Lemmas: hexadecimal rendering of the digest -/

theorem toLE_mem_lt (n v : Nat) : ∀ b ∈ MD5.toLE n v, b < 256 := by
  induction n generalizing v with
  | zero => simp [MD5.toLE]
  | succ n ih =>
    intro b hb
    rw [MD5.toLE] at hb
    rcases List.mem_cons.mp hb with h | h
    · rw [h]; exact Nat.mod_lt _ (by norm_num)
    · exact ih _ b h

theorem md5Bytes_mem_lt (msg : List Nat) : ∀ b ∈ MD5.md5Bytes msg, b < 256 := by
  intro b hb
  simp only [MD5.md5Bytes, List.mem_append] at hb
  rcases hb with ((h | h) | h) | h <;> exact toLE_mem_lt _ _ b h

theorem hexDigit_mem_lower (n : Nat) (h : n < 16) :
    MD5.hexDigit n ∈ lowerHexChars := by
  interval_cases n <;> decide

theorem md5Hex_chars (msg : List Nat) :
    ∀ c ∈ (MD5.md5Hex msg).data, c ∈ lowerHexChars := by
  intro c hc
  have hc' : c ∈ ((MD5.md5Bytes msg).map MD5.byteHexChars).flatten := hc
  rcases List.mem_flatten.mp hc' with ⟨l, hl, hcl⟩
  rcases List.mem_map.mp hl with ⟨b, hb, rfl⟩
  have hb256 : b < 256 := md5Bytes_mem_lt msg b hb
  rcases List.mem_cons.mp hcl with h | h
  · rw [h]
    exact hexDigit_mem_lower _ ((Nat.div_lt_iff_lt_mul (by norm_num)).mpr hb256)
  · rw [List.mem_singleton.mp h]
    exact hexDigit_mem_lower _ (Nat.mod_lt _ (by norm_num))

/-! # Claim theorems -/

/-- C1: `getCacheKey` returns the MD5 digest — as a lowercase hexadecimal
string — of the base digest bytes, a single null-byte separator, and the
JSON serialization of the `supportsStaticESM` flag. Identical inputs give
identical digests (only the setup-time base-key closure and the call
arguments enter); two calls that differ only in the static-ES-module flag
hash different messages (shown whenever their base digests agree, as they
do for a base-key function of source, filename and version only), and at a
concrete base digest the two MD5 digests are computed and differ. -/
theorem getCacheKey_md5_spec (st : TransformerState) (src fn : String)
    (jo : JestTransformOptions) :
    getCacheKey st src fn jo =
      MD5.md5Hex (utf8Bytes (st.cacheKeyFunction src fn jo) ++ [0]
        ++ utf8Bytes (jsonSupportsStaticESM jo.supportsStaticESM))
    ∧ (∀ c ∈ (getCacheKey st src fn jo).data, c ∈ lowerHexChars)
    ∧ (∀ st' : TransformerState, st'.cacheKeyFunction = st.cacheKeyFunction →
        getCacheKey st' src fn jo = getCacheKey st src fn jo)
    ∧ (∀ i : Bool,
        st.cacheKeyFunction src fn ⟨true, i⟩ = st.cacheKeyFunction src fn ⟨false, i⟩ →
        utf8Bytes (st.cacheKeyFunction src fn ⟨true, i⟩) ++ [0]
            ++ utf8Bytes (jsonSupportsStaticESM true) ≠
          utf8Bytes (st.cacheKeyFunction src fn ⟨false, i⟩) ++ [0]
            ++ utf8Bytes (jsonSupportsStaticESM false))
    ∧ getCacheKey md5SpecState "x" "f.ts" ⟨true, false⟩ ≠
        getCacheKey md5SpecState "x" "f.ts" ⟨false, false⟩ := by
  refine ⟨rfl, md5Hex_chars _, fun st' h => by simp [getCacheKey, h], ?_, by decide⟩
  intro i hbase heq
  rw [hbase] at heq
  have htail := List.append_cancel_left heq
  exact absurd htail (by decide)

/-- C1 witness: the digest equation and the message difference at the
constant base-key state. -/
theorem getCacheKey_md5_spec_witness :
    getCacheKey md5SpecState "x" "f.ts" ⟨true, false⟩ =
      MD5.md5Hex (utf8Bytes "base" ++ [0] ++ utf8Bytes (jsonSupportsStaticESM true))
    ∧ utf8Bytes "base" ++ [0] ++ utf8Bytes (jsonSupportsStaticESM true) ≠
        utf8Bytes "base" ++ [0] ++ utf8Bytes (jsonSupportsStaticESM false) := by
  have h := getCacheKey_md5_spec md5SpecState "x" "f.ts" ⟨true, false⟩
  exact ⟨h.1, h.2.2.2.1 false rfl⟩

/-- C2 counterexample: a configured instance whose setup input already
carries two coverage-plugin descriptors keeps both — the plugin list holds
two entries with the coverage identifier, and two transform calls with
coverage requested still leave two, not one. -/
theorem coverage_plugin_duplicates_from_setup :
    Except.map
      (fun st => coverageCount (runCalls st [covCall, covCall]).computedSwcOptions)
      (createTransformer ckfConst "1.3.0" (some dupPluginsInput) SwcrcEnv.absent id)
      = Except.ok 2
    ∧ (2 : Nat) ≠ 1 := ⟨rfl, by decide⟩

/-- C2 amended: when the instance starts with at most one coverage
descriptor (in particular with none, as with any setup input that does not
itself list the coverage plugin), every sequence of transform calls keeps
at most one; and from a coverage-free start on a capable instance, two
calls with coverage requested both times leave exactly one. -/
theorem coverage_plugin_at_most_one_amended :
    (∀ (st : TransformerState) (cs : List TransformCall),
      coverageCount st.computedSwcOptions ≤ 1 →
      coverageCount (runCalls st cs).computedSwcOptions ≤ 1)
    ∧ (∀ (st : TransformerState) (c1 c2 : TransformCall),
      coverageCount st.computedSwcOptions = 0 → st.canInstrument = true →
      c1.jestOptions.instrument = true → c2.jestOptions.instrument = true →
      coverageCount (runCalls st [c1, c2]).computedSwcOptions = 1) := by
  constructor
  · intro st cs h
    induction cs generalizing st with
    | nil => exact h
    | cons c cs ih =>
      rw [runCalls, List.foldl_cons, ← runCalls]
      apply ih
      rw [runCall_coverageCount]
      split
      · omega
      · exact h
  · intro st c1 c2 h0 hcap hi1 hi2
    have h2 : runCalls st [c1, c2] = runCall (runCall st c1) c2 := rfl
    rw [h2, runCall_coverageCount, runCall_canInstrument, hcap, hi2,
      runCall_coverageCount, hcap, hi1, h0]
    simp

/-- C2 amended witness: on a capable, coverage-free instance, two coverage
calls leave exactly one descriptor, and one call keeps the count at most
one. -/
theorem coverage_plugin_at_most_one_amended_witness :
    coverageCount (runCalls capableState [covCall, covCall]).computedSwcOptions = 1
    ∧ coverageCount (runCalls capableState [covCall]).computedSwcOptions ≤ 1 :=
  ⟨coverage_plugin_at_most_one_amended.2 capableState covCall covCall
      (by decide) rfl rfl rfl,
   coverage_plugin_at_most_one_amended.1 capableState [covCall] (by decide)⟩

/-- C3: the synchronous transform hands the compiler module type `'es6'`
when `supportsStaticESM` holds and `'commonjs'` otherwise, while the
asynchronous transform always hands `'es6'`. -/
theorem module_type_overlay_sync_async (st : TransformerState) (src fn : String)
    (jo : JestTransformOptions) :
    (process st src fn jo).2.opts.module.bind ModuleConfig.type =
      some (if jo.supportsStaticESM then "es6" else "commonjs")
    ∧ (processAsync st src fn jo).2.opts.module.bind ModuleConfig.type = some "es6" :=
  ⟨rfl, rfl⟩

/-- C4: when the call does not request coverage, or the instance was not
marked capable, a transform call (sync or async) leaves the whole
transformer state — shared options and plugin list included — unchanged. -/
theorem injector_noop_frame (st : TransformerState) (src fn : String)
    (jo : JestTransformOptions)
    (h : jo.instrument = false ∨ st.canInstrument = false) :
    (process st src fn jo).1 = st ∧ (processAsync st src fn jo).1 = st := by
  have hs : (jo.instrument && st.canInstrument) = false := by
    rcases h with h | h <;> simp [h]
  have hi := insert_of_not_should jo st.canInstrument st.computedSwcOptions
    (some st.instrumentOptions) hs
  constructor <;> simp only [process, processAsync, hi]

/-- C4 witness: with an incapable instance and coverage requested, both
calls leave the state unchanged. -/
theorem injector_noop_frame_witness :
    (process noopState "s" "f.ts" ⟨true, true⟩).1 = noopState
    ∧ (processAsync noopState "s" "f.ts" ⟨true, true⟩).1 = noopState :=
  injector_noop_frame noopState "s" "f.ts" ⟨true, true⟩ (Or.inr rfl)

/-- C5: whatever the setup input (marker set to `false`, omitted, or
anything else) and whatever the `.swcrc` environment, when the Option
Resolver returns options they carry `jsc.transform.hidden.jest = true`. -/
theorem hidden_jest_marker_always_true (swcOptions : Option SetupInput)
    (env : SwcrcEnv) (rp : String → String) (opts : Options)
    (h : buildSwcTransformOpts swcOptions env rp = Except.ok opts) :
    hiddenJestOf opts = some true := by
  unfold buildSwcTransformOpts at h
  cases hr : resolveInput swcOptions env with
  | error e => rw [hr] at h; exact absurd h (by simp)
  | ok chosen =>
    rw [hr] at h
    injection h with h'
    rw [← h']
    exact applyDefaults_hiddenJest _ _

/-- C5 witness: the resolver applied to empty explicit options (and to an
input that sets the marker to `false`) yields a `true` marker. -/
theorem hidden_jest_marker_always_true_witness :
    hiddenJestOf (applyDefaults Options.empty id) = some true :=
  hidden_jest_marker_always_true (some SetupInput.empty) SwcrcEnv.absent id
    (applyDefaults Options.empty id) rfl

/-- C6: with neither `env` nor `jsc.target` in the effective input, the
resolved options carry the fixed default target `es2016`; with either
present, the resolver leaves the input's target untouched. -/
theorem target_default_es2016 (swcOptions : Option SetupInput) (env : SwcrcEnv)
    (rp : String → String) (inp : SetupInput) (opts : Options)
    (hres : resolveInput swcOptions env = Except.ok inp)
    (h : buildSwcTransformOpts swcOptions env rp = Except.ok opts) :
    (inp.opts.env = none → targetOf inp.opts = none →
      targetOf opts = some JscTarget.es2016)
    ∧ (∀ e, inp.opts.env = some e → targetOf opts = targetOf inp.opts)
    ∧ (∀ t, targetOf inp.opts = some t → targetOf opts = some t) := by
  have hopts : opts = applyDefaults inp.opts rp := by
    unfold buildSwcTransformOpts at h
    rw [hres] at h
    injection h with h'
    exact h'.symm
  subst hopts
  refine ⟨fun h1 h2 => applyDefaults_target_default _ _ h1 h2,
    fun e he => ?_, fun t ht => ?_⟩
  · exact applyDefaults_target_keep _ _ (by simp [he])
  · have ht' : inp.opts.jsc.bind JscConfig.target = some t := ht
    rw [applyDefaults_target_keep _ _ (by simp [ht'])]
    exact ht

/-- C6 witness: the empty input gets the default target, and an input with
an explicit target keeps it. -/
theorem target_default_es2016_witness :
    targetOf (applyDefaults Options.empty id) = some JscTarget.es2016 :=
  (target_default_es2016 (some SetupInput.empty) SwcrcEnv.absent id
    SetupInput.empty (applyDefaults Options.empty id) rfl rfl).1 rfl rfl

/-- C7 counterexample: a caller-set source-map value of explicit `false` is
not left unchanged — the resolver overwrites it with `'inline'`. -/
theorem sourceMaps_false_overwritten :
    Except.map Options.sourceMaps
      (buildSwcTransformOpts (some smFalseInput) SwcrcEnv.absent id)
      = Except.ok (some SourceMapsConfig.inlineMode)
    ∧ some SourceMapsConfig.inlineMode ≠ some (SourceMapsConfig.flag false) :=
  ⟨rfl, by decide⟩

/-- C7 amended: the inline default is applied exactly when the caller's
source-map value is falsy — unset or an explicit `false`, which is
overwritten — while truthy values (`true`, `'inline'`) are left
unchanged. -/
theorem sourceMaps_default_truthiness_amended (swcOptions : Option SetupInput)
    (env : SwcrcEnv) (rp : String → String) (inp : SetupInput) (opts : Options)
    (hres : resolveInput swcOptions env = Except.ok inp)
    (h : buildSwcTransformOpts swcOptions env rp = Except.ok opts) :
    (sourceMapsTruthy inp.opts.sourceMaps = false →
      opts.sourceMaps = some SourceMapsConfig.inlineMode)
    ∧ (sourceMapsTruthy inp.opts.sourceMaps = true →
      opts.sourceMaps = inp.opts.sourceMaps) := by
  have hopts : opts = applyDefaults inp.opts rp := by
    unfold buildSwcTransformOpts at h
    rw [hres] at h
    injection h with h'
    exact h'.symm
  subst hopts
  exact ⟨fun hf => applyDefaults_sourceMaps_falsy _ _ hf,
    fun ht => applyDefaults_sourceMaps_truthy _ _ ht⟩

/-- C7 amended witness: the explicit-`false` input ends at `'inline'`. -/
theorem sourceMaps_default_truthiness_amended_witness :
    (applyDefaults smFalseInput.opts id).sourceMaps =
      some SourceMapsConfig.inlineMode :=
  (sourceMaps_default_truthiness_amended (some smFalseInput) SwcrcEnv.absent id
    smFalseInput (applyDefaults smFalseInput.opts id) rfl rfl).1 rfl

/-- C8: with no explicit options, an existing but malformed `.swcrc` makes
setup fail with the error message carrying one rendered entry per collected
parse error (never a partial result), while a well-formed or absent file
yields resolved options and no error. -/
theorem swcrc_parse_failure_behavior (env : SwcrcEnv) (rp : String → String) :
    (env.present = true → env.parseErrors ≠ [] →
      buildSwcTransformOpts none env rp =
        Except.error ("Error parsing " ++ env.cwd ++ "/.swcrc" ++ ": "
          ++ String.intercalate ", " (env.parseErrors.map renderParseError))
      ∧ ∀ opts : Options, buildSwcTransformOpts none env rp ≠ Except.ok opts)
    ∧ ((env.present = false ∨ env.parseErrors = []) →
      ∃ opts, buildSwcTransformOpts none env rp = Except.ok opts) := by
  constructor
  · intro hp he
    have hlen : env.parseErrors.length > 0 := List.length_pos.mpr he
    have herr : buildSwcTransformOpts none env rp =
        Except.error ("Error parsing " ++ env.cwd ++ "/.swcrc" ++ ": "
          ++ String.intercalate ", " (env.parseErrors.map renderParseError)) := by
      unfold buildSwcTransformOpts resolveInput getOptionsFromSwrc
      simp [hp, hlen, String.append_assoc]
    exact ⟨herr, fun opts hok => by rw [herr] at hok; exact absurd hok (by simp)⟩
  · intro h
    unfold buildSwcTransformOpts resolveInput getOptionsFromSwrc
    rcases h with h | h
    · exact ⟨applyDefaults SetupInput.empty.opts rp, by simp [h]⟩
    · by_cases hp : env.present = true
      · exact ⟨applyDefaults env.parsed.opts rp, by simp [hp, h]⟩
      · have hp' : env.present = false := by
          cases hb : env.present <;> simp_all
        exact ⟨applyDefaults SetupInput.empty.opts rp, by simp [hp']⟩

/-- C8 witness: a one-error `.swcrc` environment produces exactly the
error message and no options. -/
theorem swcrc_parse_failure_behavior_witness :
    buildSwcTransformOpts none badSwcrcEnv id =
      Except.error "Error parsing /proj/.swcrc: [object Object]" :=
  ((swcrc_parse_failure_behavior badSwcrcEnv id).1 rfl (by decide)).1

/-- C9: a transform call (sync or async) never persists the per-call module
choice — nor any other field — into the shared options: after the call the
`module` field, `env`, `sourceMaps`, `filename`, `jsc.target`,
`jsc.baseUrl` and `jsc.transform` are unchanged, and the only possible
difference is the plugin list gaining the coverage descriptor. -/
theorem per_call_module_overlay_frame (st : TransformerState) (src fn : String)
    (jo : JestTransformOptions) :
    ((process st src fn jo).1.computedSwcOptions.module
        = st.computedSwcOptions.module
      ∧ (process st src fn jo).1.computedSwcOptions.env
        = st.computedSwcOptions.env
      ∧ (process st src fn jo).1.computedSwcOptions.sourceMaps
        = st.computedSwcOptions.sourceMaps
      ∧ (process st src fn jo).1.computedSwcOptions.filename
        = st.computedSwcOptions.filename
      ∧ targetOf (process st src fn jo).1.computedSwcOptions
        = targetOf st.computedSwcOptions
      ∧ (process st src fn jo).1.computedSwcOptions.jsc.bind JscConfig.baseUrl
        = st.computedSwcOptions.jsc.bind JscConfig.baseUrl
      ∧ (process st src fn jo).1.computedSwcOptions.jsc.bind JscConfig.transform
        = st.computedSwcOptions.jsc.bind JscConfig.transform
      ∧ (pluginsOf (process st src fn jo).1.computedSwcOptions
          = pluginsOf st.computedSwcOptions
        ∨ pluginsOf (process st src fn jo).1.computedSwcOptions
          = pluginsOf st.computedSwcOptions
            ++ [(coveragePluginName, PluginOptions.instr st.instrumentOptions)]))
    ∧ ((processAsync st src fn jo).1.computedSwcOptions.module
        = st.computedSwcOptions.module
      ∧ (processAsync st src fn jo).1.computedSwcOptions.env
        = st.computedSwcOptions.env
      ∧ (processAsync st src fn jo).1.computedSwcOptions.sourceMaps
        = st.computedSwcOptions.sourceMaps
      ∧ (processAsync st src fn jo).1.computedSwcOptions.filename
        = st.computedSwcOptions.filename
      ∧ targetOf (processAsync st src fn jo).1.computedSwcOptions
        = targetOf st.computedSwcOptions
      ∧ (processAsync st src fn jo).1.computedSwcOptions.jsc.bind JscConfig.baseUrl
        = st.computedSwcOptions.jsc.bind JscConfig.baseUrl
      ∧ (processAsync st src fn jo).1.computedSwcOptions.jsc.bind JscConfig.transform
        = st.computedSwcOptions.jsc.bind JscConfig.transform
      ∧ (pluginsOf (processAsync st src fn jo).1.computedSwcOptions
          = pluginsOf st.computedSwcOptions
        ∨ pluginsOf (processAsync st src fn jo).1.computedSwcOptions
          = pluginsOf st.computedSwcOptions
            ++ [(coveragePluginName, PluginOptions.instr st.instrumentOptions)])) :=
  ⟨⟨insert_module _ _ _ _, insert_env _ _ _ _, insert_sourceMaps _ _ _ _,
    insert_filename _ _ _ _, insert_target _ _ _ _, insert_baseUrl _ _ _ _,
    insert_transform _ _ _ _, insert_plugins _ _ _ _⟩,
   ⟨insert_module _ _ _ _, insert_env _ _ _ _, insert_sourceMaps _ _ _ _,
    insert_filename _ _ _ _, insert_target _ _ _ _, insert_baseUrl _ _ _ _,
    insert_transform _ _ _ _, insert_plugins _ _ _ _⟩⟩

/-- C10: the cache key is a function of the setup-time base-key closure and
the call arguments only: after any sequence of transform calls — including
calls that inject the coverage plugin into the shared options — every
`getCacheKey` call returns the same digest as before the sequence. -/
theorem cache_key_immune_to_option_mutation (st : TransformerState)
    (cs : List TransformCall) (src fn : String) (jo : JestTransformOptions) :
    getCacheKey (runCalls st cs) src fn jo = getCacheKey st src fn jo := by
  simp [getCacheKey, runCalls_cacheKeyFunction]
